import Mathlib

/-!
Verification of the local proxy service and the TUN device multiplexer of the
tailscale-mesh-forward-android repository.

The proxy side models `detectProtocol`, `socks5Auth`, `socks5Connect`,
`socks5Reply`, `handleHTTP` and `handleHTTPConnect` from the two observed
variants of `proxy.go` (the SOCKS5-capable one listening on 8339 and the
HTTP-only one listening on 8939).  Byte streams are `List Nat` (each element a
byte value), `io.ReadFull` failure is `Option.none`, and the destination dial
is an oracle `Bool` parameter.

The multiplexer side models the `multiTUN` owner goroutine (`multiTUN.run`)
together with the per-device `readFrom`/`runDevice` goroutines as a serialized
transition system over the owner's state: the ordered device list, the device
whose `readFrom` goroutine is live (services `Read` requests) and the device
whose `runDevice` goroutine is live (services `Write` requests).
-/

/-- Byte values of the string `"GET "` (the source scans string literals;
we embed their ASCII bytes). -/
def tokGETsp : List Nat := [71, 69, 84, 32]

/-- Byte values of `"POST "`. -/
def tokPOSTsp : List Nat := [80, 79, 83, 84, 32]

/-- Byte values of `"PUT "`. -/
def tokPUTsp : List Nat := [80, 85, 84, 32]

/-- Byte values of `"DELETE "`. -/
def tokDELETEsp : List Nat := [68, 69, 76, 69, 84, 69, 32]

/-- Byte values of `"HEAD "`. -/
def tokHEADsp : List Nat := [72, 69, 65, 68, 32]

/-- Byte values of `"OPTIONS "`. -/
def tokOPTIONSsp : List Nat := [79, 80, 84, 73, 79, 78, 83, 32]

/-- Byte values of `"CONNECT "`. -/
def tokCONNECTsp : List Nat := [67, 79, 78, 78, 69, 67, 84, 32]

/-- Byte values of `"CONNECT"` (no trailing space), compared against the first
seven peeked bytes by the HTTP-only detector variant. -/
def tokCONNECT : List Nat := [67, 79, 78, 78, 69, 67, 84]

/-- The `httpMethods` slice of `proxy.go:174` (variant listening on 8339), in
scan order. -/
def httpMethodTokens : List (List Nat) :=
  [tokGETsp, tokPOSTsp, tokPUTsp, tokDELETEsp, tokHEADsp, tokOPTIONSsp, tokCONNECTsp]

/-- The `httpMethods` slice of the HTTP-only variant (`part_001:163`): only the
first three bytes of each method name. -/
def methodAbbrevs : List (List Nat) :=
  [[71, 69, 84], [80, 79, 83], [80, 85, 84], [68, 69, 76], [72, 69, 65], [79, 80, 84], [67, 79, 78]]

/-- Protocol classification outcome of `detectProtocol` (the Go code uses the
strings HTTP, CONNECT, SOCKS5, UNSUPPORTED). -/
inductive Proto
  | HTTP
  | CONNECT
  | SOCKS5
  | UNSUPPORTED
deriving DecidableEq

namespace Proxy8339

/-- Shallow embedding of `detectProtocol` from `src/libtailscale/proxy.go`
lines 160-193 (SOCKS5-capable variant).  The argument is the successfully
peeked byte prefix (`reader.Peek(10)`); the peek-failure path returns an error
before classification and is outside this function, exactly as in the source. -/
def detectProtocol (firstBytes : List Nat) : Proto :=
  if firstBytes.length < 1 then .SOCKS5
  else
    match (if 3 ≤ firstBytes.length then
             httpMethodTokens.find? (fun m => m.isPrefixOf firstBytes)
           else none) with
    | some m => if m = tokCONNECTsp then .CONNECT else .HTTP
    | none =>
        -- the 0x05 check and the default both classify SOCKS5 (lines 187-192)
        if firstBytes.head? = some 5 then .SOCKS5 else .SOCKS5

end Proxy8339

namespace Proxy8939

/-- Shallow embedding of `detectProtocol` from `src/unnamed/part_001` lines
154-178 (HTTP-only variant): compare the first three peeked bytes against the
three-letter method abbreviations; `CON` is refined to CONNECT when the first
seven bytes spell `CONNECT`; everything else is UNSUPPORTED. -/
def detectProtocol (first7 : List Nat) : Proto :=
  if 3 ≤ first7.length then
    match methodAbbrevs.find? (fun m => first7.take 3 = m) with
    | some m =>
        if m = [67, 79, 78] ∧ 7 ≤ first7.length ∧ first7.take 7 = tokCONNECT then .CONNECT
        else .HTTP
    | none => .UNSUPPORTED
  else .UNSUPPORTED

end Proxy8939

/-- The synthetic rejection the HTTP-only variant writes for an UNSUPPORTED
classification (`part_001:149`). -/
def badRequest400 : String := "HTTP/1.1 400 Bad Request\r\nContent-Length: 0\r\n\r\n"

/-- Classification rule as the claim states it, parameterized by the
unknown-protocol policy: CONNECT for a `"CONNECT "` prefix, HTTP for any other
method token followed by a space, SOCKS5 for a leading `0x05` byte, otherwise
the configured policy outcome. -/
def claimClassify (policy : Proto) (bs : List Nat) : Proto :=
  if tokCONNECTsp.isPrefixOf bs then .CONNECT
  else if [tokGETsp, tokPOSTsp, tokPUTsp, tokDELETEsp, tokHEADsp, tokOPTIONSsp].any
            (fun m => m.isPrefixOf bs) then .HTTP
  else if bs.head? = some 5 then .SOCKS5
  else policy

/-- Claim C1 as stated: both detector variants agree with the claimed rule,
the SOCKS5-capable one with policy SOCKS5 and the HTTP-only one with policy
UNSUPPORTED (rejected with the synthetic 400 response). -/
def claimC1Prop : Prop :=
  (∀ bs : List Nat, Proxy8339.detectProtocol bs = claimClassify .SOCKS5 bs) ∧
  (∀ bs : List Nat, Proxy8939.detectProtocol bs = claimClassify .UNSUPPORTED bs)

/-- Classification actually implemented by the HTTP-only variant (the amended
claim): a prefix whose first three bytes match one of the three-letter method
abbreviations classifies as HTTP (as CONNECT when the first seven bytes spell
`CONNECT`); every other prefix, including a SOCKS5 greeting starting `0x05`,
is rejected as UNSUPPORTED with the synthetic 400 response. -/
def amendedClassifyB (bs : List Nat) : Proto :=
  if methodAbbrevs.any (fun m => bs.take 3 = m) then
    (if tokCONNECT.isPrefixOf bs then .CONNECT else .HTTP)
  else .UNSUPPORTED

section PrefixLemmas

/-- Bridge between the executable `List.isPrefixOf` and take-based reasoning. -/
theorem isPrefixOf_iff_take (u bs : List Nat) :
    u.isPrefixOf bs = true ↔ (u.length ≤ bs.length ∧ bs.take u.length = u) := by
  rw [ List.isPrefixOf_iff_prefix]
  constructor
  · intro h
    exact ⟨h.length_le, (List.prefix_iff_eq_take.mp h).symm⟩
  · intro ⟨_, h2⟩
    exact List.prefix_iff_eq_take.mpr h2.symm

/-- If a longer token is a prefix of the stream and a candidate token disagrees
with the corresponding initial segment of the longer token, the candidate is
not a prefix of the stream. -/
theorem notPrefixOfLonger (u v bs : List Nat) (h : v.isPrefixOf bs = true)
    (hlen : u.length ≤ v.length) (hne : v.take u.length ≠ u) :
    u.isPrefixOf bs = false := by
  rcases (isPrefixOf_iff_take v bs).mp h with ⟨hv1, hv2⟩
  by_contra hcon
  rcases (isPrefixOf_iff_take u bs).mp (by simpa using hcon) with ⟨_, hu2⟩
  apply hne
  calc v.take u.length = (bs.take v.length).take u.length := by rw [hv2]
    _ = bs.take u.length := by rw [List.take_take, Nat.min_eq_left hlen]
    _ = u := hu2

/-- Two method tokens that are both prefixes of the same stream are equal
(no token in the scan list is a proper prefix of another). -/
theorem tok_excl {u v bs : List Nat} (hu : u ∈ httpMethodTokens)
    (hv : v ∈ httpMethodTokens) (hu1 : u.isPrefixOf bs = true)
    (hv1 : v.isPrefixOf bs = true) : u = v := by
  have h1 := List.isPrefixOf_iff_prefix.mp hu1
  have h2 := List.isPrefixOf_iff_prefix.mp hv1
  have htot := List.prefix_or_prefix_of_prefix h1 h2
  have hpair : ∀ x ∈ httpMethodTokens, ∀ y ∈ httpMethodTokens,
      x.isPrefixOf y = true → x = y := by decide
  rcases htot with h | h
  · exact hpair u hu v hv ( List.isPrefixOf_iff_prefix.mpr h)
  · exact (hpair v hv u hu ( List.isPrefixOf_iff_prefix.mpr h)).symm

/-- When exactly the element `m` of the scan list satisfies the predicate,
`find?` returns it. -/
theorem find?_eq_of_unique {α : Type} (p : α → Bool) (L : List α) (m : α)
    (hm : m ∈ L) (hpm : p m = true)
    (huniq : ∀ x ∈ L, p x = true → x = m) : L.find? p = some m := by
  induction L with
  | nil => cases hm
  | cons a t ih =>
      by_cases ha : p a = true
      · have ham : a = m := huniq a (List.mem_cons_self a t) ha
        subst ham
        simp [List.find?, ha]
      · have ham : a ≠ m := fun h => ha (h ▸ hpm)
        have hmt : m ∈ t := by
          rcases List.mem_cons.mp hm with h | h
          · exact absurd h.symm ham
          · exact h
        simp only [List.find?, Bool.not_eq_true] at ha ⊢
        rw [ha]
        exact ih hmt (fun x hx hpx => huniq x (List.mem_cons_of_mem a hx) hpx)

end PrefixLemmas


section DetectorTheorems

/-- Every token in the scan list has length at least three. -/
theorem httpMethodTokens_len : ∀ x ∈ httpMethodTokens, 3 ≤ x.length := by decide

/-- The SOCKS5-capable detector agrees with the claimed classification rule
with unknown-protocol policy SOCKS5. -/
theorem detectA_eq_claim (bs : List Nat) :
    Proxy8339.detectProtocol bs = claimClassify Proto.SOCKS5 bs := by
  by_cases hC : tokCONNECTsp.isPrefixOf bs = true
  · have hG := notPrefixOfLonger tokGETsp tokCONNECTsp bs hC (by decide) (by decide)
    have hP := notPrefixOfLonger tokPOSTsp tokCONNECTsp bs hC (by decide) (by decide)
    have hU := notPrefixOfLonger tokPUTsp tokCONNECTsp bs hC (by decide) (by decide)
    have hD := notPrefixOfLonger tokDELETEsp tokCONNECTsp bs hC (by decide) (by decide)
    have hH := notPrefixOfLonger tokHEADsp tokCONNECTsp bs hC (by decide) (by decide)
    have hO := notPrefixOfLonger tokOPTIONSsp tokCONNECTsp bs hC (by decide) (by decide)
    have hfind : httpMethodTokens.find? (fun m => m.isPrefixOf bs) = some tokCONNECTsp :=
      find?_eq_of_unique _ _ _ (by decide) hC
        (fun x hx hpx => tok_excl hx (by decide) hpx hC)
    have hlen : tokCONNECTsp.length ≤ bs.length := ((isPrefixOf_iff_take _ _).mp hC).1
    have h3 : 3 ≤ bs.length := Nat.le_trans (by decide) hlen
    have h1 : ¬ bs.length < 1 := by omega
    have hlhs : Proxy8339.detectProtocol bs = Proto.CONNECT := by
      unfold Proxy8339.detectProtocol
      rw [if_neg h1, if_pos h3, hfind]
      show (if tokCONNECTsp = tokCONNECTsp then Proto.CONNECT else Proto.HTTP) = _
      rw [if_pos rfl]
    have hrhs : claimClassify Proto.SOCKS5 bs = Proto.CONNECT := by
      unfold claimClassify
      rw [if_pos hC]
    rw [hlhs, hrhs]
  · by_cases hAny : ([tokGETsp, tokPOSTsp, tokPUTsp, tokDELETEsp, tokHEADsp,
        tokOPTIONSsp].any (fun m => m.isPrefixOf bs)) = true
    · rcases List.any_eq_true.mp hAny with ⟨m, hm, hpm⟩
      have hmem7 : m ∈ httpMethodTokens := by
        simp only [List.mem_cons, List.not_mem_nil, or_false] at hm
        simp only [httpMethodTokens, List.mem_cons, List.not_mem_nil, or_false]
        tauto
      have hne : m ≠ tokCONNECTsp := fun he => hC (he ▸ hpm)
      have hfind : httpMethodTokens.find? (fun t => t.isPrefixOf bs) = some m :=
        find?_eq_of_unique _ _ _ hmem7 hpm
          (fun x hx hpx => tok_excl hx hmem7 hpx hpm)
      have hlen : m.length ≤ bs.length := ((isPrefixOf_iff_take _ _).mp hpm).1
      have h3 : 3 ≤ bs.length := Nat.le_trans (httpMethodTokens_len m hmem7) hlen
      have h1 : ¬ bs.length < 1 := by omega
      have hlhs : Proxy8339.detectProtocol bs = Proto.HTTP := by
        unfold Proxy8339.detectProtocol
        rw [if_neg h1, if_pos h3, hfind]
        show (if m = tokCONNECTsp then Proto.CONNECT else Proto.HTTP) = _
        rw [if_neg hne]
      have hrhs : claimClassify Proto.SOCKS5 bs = Proto.HTTP := by
        unfold claimClassify
        rw [if_neg hC, if_pos hAny]
      rw [hlhs, hrhs]
    · have hfind : httpMethodTokens.find? (fun m => m.isPrefixOf bs) = none := by
        rw [List.find?_eq_none]
        intro x hx hpx
        simp only [httpMethodTokens, List.mem_cons, List.not_mem_nil, or_false] at hx
        rcases hx with rfl | rfl | rfl | rfl | rfl | rfl | rfl
        all_goals first
          | exact hC hpx
          | exact hAny (List.any_eq_true.mpr ⟨_, by simp, hpx⟩)
      have hlhs : Proxy8339.detectProtocol bs = Proto.SOCKS5 := by
        unfold Proxy8339.detectProtocol
        by_cases h1 : bs.length < 1
        · rw [if_pos h1]
        · rw [if_neg h1, hfind, ite_self]
          show (if bs.head? = some 5 then Proto.SOCKS5 else Proto.SOCKS5) = _
          rw [ite_self]
      have hrhs : claimClassify Proto.SOCKS5 bs = Proto.SOCKS5 := by
        unfold claimClassify
        rw [if_neg hC, if_neg hAny, ite_self]
      rw [hlhs, hrhs]

/-- All method abbreviations of the HTTP-only variant have length three. -/
theorem methodAbbrevs_len : ∀ x ∈ methodAbbrevs, x.length = 3 := by decide

/-- The HTTP-only detector agrees with the amended classification rule. -/
theorem detectB_eq_amended (bs : List Nat) :
    Proxy8939.detectProtocol bs = amendedClassifyB bs := by
  have hl : tokCONNECT.length = 7 := by decide
  by_cases h3 : 3 ≤ bs.length
  · by_cases hAny : (methodAbbrevs.any (fun m => bs.take 3 = m)) = true
    · rcases List.any_eq_true.mp hAny with ⟨m, hm, hpm⟩
      have heq : bs.take 3 = m := of_decide_eq_true hpm
      have hfind : methodAbbrevs.find? (fun t => bs.take 3 = t) = some m :=
        find?_eq_of_unique _ _ _ hm hpm (fun x _ hpx => by
          have hx : bs.take 3 = x := of_decide_eq_true hpx
          rw [← hx, heq])
      have htt : (bs.take 7).take 3 = bs.take 3 := by
        have h37 : min 3 7 = 3 := by decide
        rw [List.take_take, h37]
      by_cases hPC : tokCONNECT.isPrefixOf bs = true
      · have hp := (isPrefixOf_iff_take _ _).mp hPC
        have h7 : 7 ≤ bs.length := by
          have := hp.1; rw [hl] at this; exact this
        have ht7 : bs.take 7 = tokCONNECT := by
          have := hp.2; rw [hl] at this; exact this
        have hm3 : m = [67, 79, 78] := by
          rw [← heq, ← htt, ht7]
          decide
        have hlhs : Proxy8939.detectProtocol bs = Proto.CONNECT := by
          unfold Proxy8939.detectProtocol
          rw [if_pos h3, hfind]
          show (if m = [67, 79, 78] ∧ 7 ≤ bs.length ∧ bs.take 7 = tokCONNECT
                then Proto.CONNECT else Proto.HTTP) = _
          rw [if_pos ⟨hm3, h7, ht7⟩]
        have hrhs : amendedClassifyB bs = Proto.CONNECT := by
          unfold amendedClassifyB
          rw [if_pos hAny, if_pos hPC]
        rw [hlhs, hrhs]
      · have hnot : ¬ (m = [67, 79, 78] ∧ 7 ≤ bs.length ∧ bs.take 7 = tokCONNECT) := by
          rintro ⟨_, hl7, ht7⟩
          apply hPC
          apply (isPrefixOf_iff_take _ _).mpr
          constructor
          · rw [hl]; exact hl7
          · rw [hl]; exact ht7
        have hlhs : Proxy8939.detectProtocol bs = Proto.HTTP := by
          unfold Proxy8939.detectProtocol
          rw [if_pos h3, hfind]
          show (if m = [67, 79, 78] ∧ 7 ≤ bs.length ∧ bs.take 7 = tokCONNECT
                then Proto.CONNECT else Proto.HTTP) = _
          rw [if_neg hnot]
        have hrhs : amendedClassifyB bs = Proto.HTTP := by
          unfold amendedClassifyB
          rw [if_pos hAny, if_neg hPC]
        rw [hlhs, hrhs]
    · have hfind : methodAbbrevs.find? (fun t => bs.take 3 = t) = none := by
        rw [List.find?_eq_none]
        intro x hx hpx
        exact hAny (List.any_eq_true.mpr ⟨x, hx, hpx⟩)
      have hlhs : Proxy8939.detectProtocol bs = Proto.UNSUPPORTED := by
        unfold Proxy8939.detectProtocol
        rw [if_pos h3, hfind]
      have hrhs : amendedClassifyB bs = Proto.UNSUPPORTED := by
        unfold amendedClassifyB
        rw [if_neg hAny]
      rw [hlhs, hrhs]
  · have hAny : ¬ (methodAbbrevs.any (fun m => bs.take 3 = m)) = true := by
      intro h
      rcases List.any_eq_true.mp h with ⟨m, hm, hpm⟩
      have heq : bs.take 3 = m := of_decide_eq_true hpm
      have hlm : (bs.take 3).length = 3 := by
        rw [heq]; exact methodAbbrevs_len m hm
      rw [List.length_take] at hlm
      omega
    have hlhs : Proxy8939.detectProtocol bs = Proto.UNSUPPORTED := by
      unfold Proxy8939.detectProtocol
      rw [if_neg h3]
    have hrhs : amendedClassifyB bs = Proto.UNSUPPORTED := by
      unfold amendedClassifyB
      rw [if_neg hAny]
    rw [hlhs, hrhs]

end DetectorTheorems

/-- C1 (amended): the SOCKS5-capable variant classifies exactly as the claim
states (`CONNECT ` prefix to CONNECT, other method token plus space to HTTP,
else leading `0x05` to SOCKS5, else SOCKS5 by policy); the HTTP-only variant
instead inspects only the first three peeked bytes against the abbreviations
GET/POS/PUT/DEL/HEA/OPT/CON, classifying a match as HTTP (as CONNECT when the
first seven bytes spell `CONNECT`), and rejects every other prefix — including
a SOCKS5 greeting starting `0x05` — as UNSUPPORTED via the synthetic 400
response. -/
theorem claimC1_amended :
    (∀ bs : List Nat, Proxy8339.detectProtocol bs = claimClassify Proto.SOCKS5 bs) ∧
    (∀ bs : List Nat, Proxy8939.detectProtocol bs = amendedClassifyB bs) :=
  ⟨detectA_eq_claim, detectB_eq_amended⟩

/-- C1 counterexample: a SOCKS5 greeting (leading byte `0x05`) peeked by the
HTTP-only variant is classified UNSUPPORTED (hence rejected with a 400
response), while the claim as stated requires classification SOCKS5. -/
theorem claimC1_cex :
    Proxy8939.detectProtocol [5, 1, 0, 0, 0, 0, 0] = Proto.UNSUPPORTED ∧
    claimClassify Proto.UNSUPPORTED [5, 1, 0, 0, 0, 0, 0] = Proto.SOCKS5 ∧
    ¬ claimC1Prop := by
  refine ⟨by decide, by decide, fun h => ?_⟩
  have hx := h.2 [5, 1, 0, 0, 0, 0, 0]
  rw [show Proxy8939.detectProtocol [5, 1, 0, 0, 0, 0, 0] = Proto.UNSUPPORTED by decide,
    show claimClassify Proto.UNSUPPORTED [5, 1, 0, 0, 0, 0, 0] = Proto.SOCKS5 by decide] at hx
  exact Proto.noConfusion hx

/-- Embedding of `io.ReadFull` over a byte stream: reading `n` bytes succeeds
with the bytes read and the rest of the stream exactly when `n` bytes are
available. -/
def readFull (n : Nat) (s : List Nat) : Option (List Nat × List Nat) :=
  if n ≤ s.length then some (s.take n, s.drop n) else none

/-- Shallow embedding of `socks5Reply` (`proxy.go:306-313`): the frame written
for reply code `rep` — VER, REP, RSV, ATYP(IPv4), 4 bound-address bytes, 2
bound-port bytes. -/
def socks5Reply (rep : Nat) : List Nat :=
  [5, rep, 0, 1,
   0, 0, 0, 0,
   0, 0]

/-- Claim C2 as stated: every reply frame is 11 bytes long with the given
layout. -/
def claimC2Prop : Prop :=
  ∀ rep : Nat,
    (socks5Reply rep).length = 11 ∧
    (socks5Reply rep).head? = some 5 ∧
    ((socks5Reply rep).drop 2).head? = some 0 ∧
    ((socks5Reply rep).drop 3).head? = some 1 ∧
    (socks5Reply rep).drop 4 = [0, 0, 0, 0, 0, 0]

/-- C2 counterexample: the frame written for reply code 0 has 10 bytes, not
11 (RFC 1928's VER+REP+RSV+ATYP+BND.ADDR+BND.PORT add up to 10). -/
theorem claimC2_cex : (socks5Reply 0).length = 10 ∧ ¬ claimC2Prop := by
  refine ⟨by decide, fun h => ?_⟩
  have hx := (h 0).1
  rw [show (socks5Reply 0).length = 10 by decide] at hx
  omega

/-- C2 (amended): every SOCKS5 reply the service sends is a 10-byte frame
VER(0x05), REP, RSV(0x00), ATYP(0x01), four zero bound-address bytes and two
zero bound-port bytes; byte 0 is 0x05, byte 2 is 0x00, byte 3 is 0x01, and the
bound address and port bytes are all zero. -/
theorem claimC2_amended :
    ∀ rep : Nat,
      socks5Reply rep = [5, rep, 0, 1, 0, 0, 0, 0, 0, 0] ∧
      (socks5Reply rep).length = 10 ∧
      (socks5Reply rep).head? = some 5 ∧
      ((socks5Reply rep).drop 2).head? = some 0 ∧
      ((socks5Reply rep).drop 3).head? = some 1 ∧
      (socks5Reply rep).drop 4 = [0, 0, 0, 0, 0, 0] := by
  intro rep
  exact ⟨rfl, rfl, rfl, rfl, rfl, rfl⟩

/-- Shallow embedding of `socks5Auth` (`proxy.go:208-228`): read the version
and method-count bytes, fail unless the version is 5, read the declared
methods (values ignored), and reply `{0x05, 0x00}`.  The result is the reply
written together with the unread rest of the stream, or `none` on failure. -/
def socks5Auth (input : List Nat) : Option (List Nat × List Nat) :=
  match input with
  | version :: nmethods :: rest =>
      if version = 5 then
        match readFull nmethods rest with
        | some (_, rest2) => some ([5, 0], rest2)
        | none => none
      else none
  | _ => none

/-- C5: for every greeting whose version byte is 5 and whose declared method
bytes are all available, auth negotiation replies exactly `{0x05, 0x00}`,
whatever and however many methods are offered (including zero). -/
theorem claimC5 :
    ∀ (nmethods : Nat) (rest : List Nat), nmethods ≤ rest.length →
      socks5Auth (5 :: nmethods :: rest) = some ([5, 0], rest.drop nmethods) := by
  intro nmethods rest h
  simp [socks5Auth, readFull, h]

/-- C5 witness: the zero-method greeting `0x05 0x00` is answered `{0x05, 0x00}`,
and so is `0x05 0x02` followed by two method bytes. -/
theorem claimC5_witness :
    socks5Auth [5, 0] = some ([5, 0], []) ∧
    socks5Auth [5, 2, 0, 2, 9] = some ([5, 0], [9]) :=
  ⟨claimC5 0 [] (by decide), claimC5 2 [0, 2, 9] (by decide)⟩

/-- Result of parsing the target address of a SOCKS5 connect request
(`proxy.go:250-278`): the parsed address bytes and the unread rest, a short
read, or an unsupported address type (`0x04` IPv6 and any unknown type both
take the reply-`0x08` path). -/
inductive AddrParse
  | parsed (addr : List Nat) (rest : List Nat)
  | shortRead
  | unsupported

/-- Address parsing branch of `socks5Connect`: IPv4 (`0x01`) reads four bytes,
domain (`0x03`) reads a one-byte length then that many bytes, IPv6 (`0x04`)
and unknown types are unsupported. -/
def parseTargetAddr (atyp : Nat) (rest : List Nat) : AddrParse :=
  if atyp = 1 then
    match readFull 4 rest with
    | some (addr, r) => .parsed addr r
    | none => .shortRead
  else if atyp = 3 then
    match rest with
    | len :: r =>
        match readFull len r with
        | some (dom, r2) => .parsed dom r2
        | none => .shortRead
    | [] => .shortRead
  else .unsupported

/-- Observable outcome of `socks5Connect`: the reply frames written to the
client, the target of the dial attempt if one was made (address bytes and
port), and whether the relay was started. -/
structure ConnectOutcome where
  replies : List (List Nat)
  dialed : Option (List Nat × Nat)
  relayed : Bool
deriving DecidableEq

/-- Shallow embedding of `socks5Connect` (`proxy.go:231-302`).  The input is
the unread byte stream after auth; `dialOK` is the oracle for whether
`net.DialTimeout` succeeds within its 10-second bound.  The version check
fails silently; a non-CONNECT command replies `0x07`; an unsupported address
type replies `0x08` before any dial; the port is two big-endian bytes; a dial
failure replies `0x05`; success replies `0x00` and starts the relay. -/
def socks5Connect (dialOK : Bool) (input : List Nat) : ConnectOutcome :=
  match input with
  | version :: cmd :: _rsv :: atyp :: rest =>
      if version ≠ 5 then ⟨[], none, false⟩
      else if cmd ≠ 1 then ⟨[socks5Reply 7], none, false⟩
      else
        match parseTargetAddr atyp rest with
        | .shortRead => ⟨[], none, false⟩
        | .unsupported => ⟨[socks5Reply 8], none, false⟩
        | .parsed addr rest2 =>
            match rest2 with
            | p1 :: p2 :: _ =>
                if dialOK then ⟨[socks5Reply 0], some (addr, p1 * 256 + p2), true⟩
                else ⟨[socks5Reply 5], some (addr, p1 * 256 + p2), false⟩
            | _ => ⟨[], none, false⟩
  | _ => ⟨[], none, false⟩

/-- C6: for well-formed connect requests, a non-CONNECT command replies code
7; address type 4 (IPv6) or any other unknown type replies code 8 with no dial
ever attempted; with a supported address type (IPv4 or domain), a failed dial
replies code 5 and a successful dial replies code 0. -/
theorem claimC6 :
    ∀ (dialOK : Bool) (cmd rsv atyp : Nat) (rest : List Nat),
      (cmd ≠ 1 →
        socks5Connect dialOK (5 :: cmd :: rsv :: atyp :: rest) =
          ⟨[socks5Reply 7], none, false⟩) ∧
      (atyp ≠ 1 → atyp ≠ 3 →
        socks5Connect dialOK (5 :: 1 :: rsv :: atyp :: rest) =
          ⟨[socks5Reply 8], none, false⟩) ∧
      (∀ a1 a2 a3 a4 p1 p2 : Nat, ∀ tail : List Nat,
        socks5Connect dialOK (5 :: 1 :: rsv :: 1 :: a1 :: a2 :: a3 :: a4 :: p1 :: p2 :: tail) =
          if dialOK then ⟨[socks5Reply 0], some ([a1, a2, a3, a4], p1 * 256 + p2), true⟩
          else ⟨[socks5Reply 5], some ([a1, a2, a3, a4], p1 * 256 + p2), false⟩) ∧
      (∀ dom : List Nat, ∀ p1 p2 : Nat, ∀ tail : List Nat,
        socks5Connect dialOK (5 :: 1 :: rsv :: 3 :: dom.length :: (dom ++ p1 :: p2 :: tail)) =
          if dialOK then ⟨[socks5Reply 0], some (dom, p1 * 256 + p2), true⟩
          else ⟨[socks5Reply 5], some (dom, p1 * 256 + p2), false⟩) := by
  intro dialOK cmd rsv atyp rest
  refine ⟨?_, ?_, ?_, ?_⟩
  · intro hcmd
    simp [socks5Connect, hcmd]
  · intro h1 h3
    simp [socks5Connect, parseTargetAddr, h1, h3]
  · intro a1 a2 a3 a4 p1 p2 tail
    simp [socks5Connect, parseTargetAddr, readFull]
  · intro dom p1 p2 tail
    have htake : (dom ++ p1 :: p2 :: tail).take dom.length = dom :=
      List.take_left dom (p1 :: p2 :: tail)
    have hdrop : (dom ++ p1 :: p2 :: tail).drop dom.length = p1 :: p2 :: tail :=
      List.drop_left dom (p1 :: p2 :: tail)
    have hlen : dom.length ≤ (dom ++ p1 :: p2 :: tail).length := by
      rw [List.length_append]
      omega
    simp [socks5Connect, parseTargetAddr, readFull, htake, hdrop, hlen]

/-- C6 witness: concrete requests exercising each branch — command 2 replies
code 7, IPv6 address type replies code 8 with no dial, an IPv4 request replies
code 5 on dial failure and code 0 on dial success, a domain request likewise. -/
theorem claimC6_witness :
    socks5Connect true (5 :: 2 :: 0 :: 1 :: [1, 2, 3, 4, 0, 80]) =
      ⟨[socks5Reply 7], none, false⟩ ∧
    socks5Connect true (5 :: 1 :: 0 :: 4 :: [1, 2, 3, 4, 0, 80]) =
      ⟨[socks5Reply 8], none, false⟩ ∧
    socks5Connect false (5 :: 1 :: 0 :: 1 :: [1, 2, 3, 4, 0, 80]) =
      ⟨[socks5Reply 5], some ([1, 2, 3, 4], 80), false⟩ ∧
    socks5Connect true (5 :: 1 :: 0 :: 1 :: [1, 2, 3, 4, 0, 80]) =
      ⟨[socks5Reply 0], some ([1, 2, 3, 4], 80), true⟩ ∧
    socks5Connect true (5 :: 1 :: 0 :: 3 :: 2 :: [7, 8, 1, 187]) =
      ⟨[socks5Reply 0], some ([7, 8], 1 * 256 + 187), true⟩ := by
  refine ⟨?_, ?_, ?_, ?_, ?_⟩
  · exact ((claimC6 true 2 0 1 [1, 2, 3, 4, 0, 80]).1 (by decide))
  · exact ((claimC6 true 1 0 4 [1, 2, 3, 4, 0, 80]).2.1 (by decide) (by decide))
  · have h := ((claimC6 false 1 0 1 []).2.2.1 1 2 3 4 0 80 [])
    simpa using h
  · have h := ((claimC6 true 1 0 1 []).2.2.1 1 2 3 4 0 80 [])
    simpa using h
  · have h := ((claimC6 true 1 0 3 []).2.2.2 [7, 8] 1 187 [])
    simpa using h

/-- The JSON body `handleHTTP` builds (`proxy.go:347-348`, identical in
`part_001:189-190`) for a parsed request with method `m` and URL `u`. -/
def jsonBody (m u : String) : String :=
  "\x7b\"status\":\"ok\",\"method\":\"" ++ m ++ "\",\"url\":\"" ++ u ++
    "\",\"protocol\":\"http\"\x7d"

/-- Observable outcome of an HTTP handler: the bytes written back to the
client and the target of a dial attempt, if any was made. -/
structure HttpOutcome where
  written : String
  dialed : Option String
deriving DecidableEq

/-- Shallow embedding of `handleHTTP` (`proxy.go:339-357`, identical in
`part_001:181-199`) after `http.ReadRequest` succeeded with method `m` and URL
`u`: write a 200 response whose `Content-Length` is the byte length of the
JSON body (Go's `len` counts bytes, Lean's `String.utf8ByteSize` likewise),
and never dial anywhere. -/
def handleHTTP (m u : String) : HttpOutcome :=
  { written :=
      "HTTP/1.1 200 OK\r\n" ++
      "Content-Type: application/json\r\n" ++
      "Content-Length: " ++ toString (jsonBody m u).utf8ByteSize ++ "\r\n" ++
      "\r\n" ++
      jsonBody m u
    dialed := none }

/-- Shallow embedding of `handleHTTPConnect` (`proxy.go:360-382`) after
`http.ReadRequest` succeeded with authority `host`: dial the authority (oracle
`dialOK`), answer 502 on failure and `200 Connection established` on success. -/
def handleHTTPConnect (host : String) (dialOK : Bool) : HttpOutcome :=
  if dialOK then
    { written := "HTTP/1.1 200 Connection established\r\n\r\n", dialed := some host }
  else
    { written := "HTTP/1.1 502 Bad Gateway\r\n\r\n", dialed := some host }

/-- C9: for every successfully parsed plain HTTP request with method `m` and
URL `u`, the handler writes a 200 response whose body is exactly the JSON
object with status ok, the method, the URL and protocol http, whose
Content-Length header value is the byte length of that body, and the request
is never proxied upstream (no dial is made). -/
theorem claimC9 :
    ∀ m u : String,
      (handleHTTP m u).dialed = none ∧
      jsonBody m u =
        "\x7b\"status\":\"ok\",\"method\":\"" ++ m ++ "\",\"url\":\"" ++ u ++
          "\",\"protocol\":\"http\"\x7d" ∧
      (handleHTTP m u).written =
        "HTTP/1.1 200 OK\r\n" ++ "Content-Type: application/json\r\n" ++
        "Content-Length: " ++ toString (jsonBody m u).utf8ByteSize ++ "\r\n" ++ "\r\n" ++
        jsonBody m u := by
  intro m u
  exact ⟨rfl, rfl, rfl⟩

/-- Default MTU used when no device is installed (`part_003:27`,
`minimalMTU` from wgengine, chosen for IPv6 compatibility). -/
def defaultMTU : Nat := 1280

/-- Abstract TUN device handed to `multiTUN.add`: an identity plus the values
its `MTU()` and `Name()` methods report (device-level I/O results are oracle
parameters of the transition system). -/
structure TunDev where
  id : Nat
  mtu : Nat
  name : String
deriving DecidableEq

/-- The `tunDevice` wrapper of `store.go:160-168`: the device together with
the state of its `close` channel (`closeSig = true` once `close(dev.close)`
has been executed). -/
structure WrapDev where
  dev : TunDev
  closeSig : Bool
deriving DecidableEq

/-- Identity of a wrapped device. -/
def wrapId (w : WrapDev) : Nat := w.dev.id

/-- State of the `multiTUN` actor: the owner goroutine's `devices` slice
(oldest first), the device whose `readFrom` goroutine is live (it alone
services `Read` requests, `store.go:300-332`), the device whose `runDevice`
goroutine is live (it alone services `Write` requests, `store.go:335-376`),
and whether `close(d.close)` has been executed (after which the owner
goroutine has returned and no request channel has a receiver). -/
structure MuxState where
  devs : List WrapDev
  reader : Option Nat
  writer : Option Nat
  closed : Bool
deriving DecidableEq

/-- State of a fresh `multiTUN` (`newTUNDevices`, `store.go:193-209`): no
devices, no live I/O goroutines, owner loop running. -/
def initState : MuxState :=
  { devs := [], reader := none, writer := none, closed := false }

/-- Requests of the `multiTUN` surface.  `readReq ok`/`writeReq ok` carry the
oracle outcome of the underlying device I/O call (`ok = false` means the
device's `Read`/`Write` returned an error). -/
inductive MuxEvent
  | addDev (d : TunDev)
  | readReq (ok : Bool)
  | writeReq (ok : Bool)
  | mtuQ
  | nameQ
  | shutdownReq
  | closeReq
deriving DecidableEq

/-- Observable reply delivered to the caller of a `multiTUN` operation. -/
inductive MuxReply
  | accepted
  | ioR (dev : Nat) (errVisible : Bool)
  | mtuR (mtu : Nat) (errVisible : Bool)
  | nameR (name : String) (errVisible : Bool)
  | shutdownDone (closedDevs : List Nat)
  | closedR
deriving DecidableEq

/-- Outcome of issuing one request: the request is never serviced (its channel
send has no receiver, so the caller blocks forever), the owner goroutine
panics, or the request is serviced leaving a new state and a reply. -/
inductive MuxOutcome
  | blocked
  | panicked
  | ok (s : MuxState) (r : MuxReply)
deriving DecidableEq

/-- Mark the close channel of the last (newest) wrapped device as closed —
the `close(prev.close)` of `store.go:264-267`. -/
def setLastClosing : List WrapDev → List WrapDev
  | [] => []
  | [w] => [{ w with closeSig := true }]
  | w :: ws => w :: setLastClosing ws

/-- Serialized transition function of the `multiTUN` actor, combining the
owner loop (`multiTUN.run`, `store.go:212-297`) with the per-device
`readFrom`/`runDevice` goroutines that service `Read`/`Write` requests.
Modeling notes, keyed to the source:
* `addDev` on a non-empty list closes the previous newest device's `close`
  channel; its `runDevice` then deterministically exits (invoking the device's
  `Close()`), the owner receives `runDone` and starts `runDevice` on the new
  newest device (`store.go:236-241, 262-280`).  The model performs this
  deterministic handoff atomically, so `writer` moves to the added device.
* `readReq` is serviced by the live `readFrom` goroutine; a device error is
  surfaced to the caller unless the device's `close` channel is closed, in
  which case the error is replaced by `nil`, `readFrom` exits, and the owner
  removes `devices[0]` and starts draining the next oldest
  (`store.go:227-234, 311-331`).
* `shutdownReq` re-executes `close(dev.close)` on every listed device
  (`store.go:243-251`); on a device already signalled closed this is a close
  of a closed channel, which panics.  Otherwise each device is closed and
  drained and the list is left empty.
* After `closeReq`, the owner goroutine has returned, so every later request
  blocks forever; a second `closeReq` re-runs `close(d.close)` and panics
  (`store.go:432-435`).  The close case itself is modeled as completing; when
  superseded devices remain listed, the Go caller additionally never receives
  `closeErr`, which no claim here depends on. -/
def muxStep (s : MuxState) (e : MuxEvent) : MuxOutcome :=
  if s.closed then
    match e with
    | .closeReq => .panicked
    | _ => .blocked
  else
    match e with
    | .addDev d =>
        match s.devs.getLast? with
        | none =>
            .ok { s with devs := [⟨d, false⟩], reader := some d.id, writer := some d.id }
              .accepted
        | some _ =>
            .ok { s with devs := setLastClosing s.devs ++ [⟨d, false⟩], writer := some d.id }
              .accepted
    | .readReq ok =>
        match s.reader with
        | none => .blocked
        | some rid =>
            match s.devs with
            | [] => .blocked
            | w :: rest =>
                if ok then .ok s (.ioR rid false)
                else if w.closeSig then
                  .ok { s with devs := rest, reader := rest.head?.map wrapId } (.ioR rid false)
                else .ok s (.ioR rid true)
    | .writeReq ok =>
        match s.writer with
        | none => .blocked
        | some wid => .ok s (.ioR wid (!ok))
    | .mtuQ =>
        match s.devs.getLast? with
        | none => .ok s (.mtuR defaultMTU false)
        | some w => .ok s (.mtuR w.dev.mtu false)
    | .nameQ =>
        match s.devs.getLast? with
        | none => .ok s (.nameR "" false)
        | some w => .ok s (.nameR w.dev.name false)
    | .shutdownReq =>
        if s.devs.any (fun w => w.closeSig) then .panicked
        else
          .ok { s with devs := [], reader := none, writer := none }
            (.shutdownDone (s.devs.map wrapId))
    | .closeReq =>
        .ok { s with closed := true, reader := none, writer := none } .closedR

/-- States of the actor reachable from a fresh `multiTUN` by serviced
requests. -/
inductive Reachable : MuxState → Prop
  | init : Reachable initState
  | step {s s' : MuxState} {e : MuxEvent} {r : MuxReply} :
      Reachable s → muxStep s e = .ok s' r → Reachable s'

section MuxLemmas

/-- Marking the newest device's close channel does not change which device is
at the head of the list. -/
theorem setLastClosing_head_id (l : List WrapDev) :
    (setLastClosing l).head?.map wrapId = l.head?.map wrapId := by
  match l with
  | [] => rfl
  | [w] => rfl
  | w :: x :: xs => rfl

/-- Marking the newest device's close channel keeps the list non-empty. -/
theorem setLastClosing_ne_nil (l : List WrapDev) (h : l ≠ []) :
    setLastClosing l ≠ [] := by
  match l with
  | [] => exact absurd rfl h
  | [w] => simp [setLastClosing]
  | w :: x :: xs => simp [setLastClosing]

/-- Head of an append whose first part is non-empty. -/
theorem head?_append_ne_nil {α : Type} (l l' : List α) (h : l ≠ []) :
    (l ++ l').head? = l.head? := by
  match l with
  | [] => exact absurd rfl h
  | a :: t => rfl

/-- Last element of a cons whose tail is non-empty. -/
theorem getLast?_cons_ne_nil {α : Type} (w : α) (ws : List α) (h : ws ≠ []) :
    (w :: ws).getLast? = ws.getLast? := by
  match ws with
  | [] => exact absurd rfl h
  | b :: t => exact List.getLast?_cons_cons

/-- After close, every request other than a second close blocks. -/
theorem muxStep_closed (s : MuxState) (e : MuxEvent) (hc : s.closed = true)
    (hne : e ≠ .closeReq) : muxStep s e = .blocked := by
  unfold muxStep
  rw [hc, if_pos rfl]
  cases e
  all_goals first
    | rfl
    | exact absurd rfl hne

/-- After close, a second close panics (close of a closed channel). -/
theorem muxStep_closed_close (s : MuxState) (hc : s.closed = true) :
    muxStep s .closeReq = .panicked := by
  unfold muxStep
  rw [hc, if_pos rfl]

/-- Adding a device to an empty list starts its `readFrom` and `runDevice`
goroutines. -/
theorem muxStep_add_empty (s : MuxState) (d : TunDev) (hc : s.closed = false)
    (hL : s.devs.getLast? = none) :
    muxStep s (.addDev d) =
      .ok { s with devs := [⟨d, false⟩], reader := some d.id, writer := some d.id }
        .accepted := by
  unfold muxStep
  rw [hc, if_neg Bool.false_ne_true, hL]

/-- Adding a device to a non-empty list signals the previous newest device to
close and hands the write path to the new device. -/
theorem muxStep_add_more (s : MuxState) (d : TunDev) (w0 : WrapDev)
    (hc : s.closed = false) (hL : s.devs.getLast? = some w0) :
    muxStep s (.addDev d) =
      .ok { s with devs := setLastClosing s.devs ++ [⟨d, false⟩], writer := some d.id }
        .accepted := by
  unfold muxStep
  rw [hc, if_neg Bool.false_ne_true, hL]

/-- With no live `readFrom` goroutine, a read request is never serviced. -/
theorem muxStep_read_none (s : MuxState) (ok : Bool) (hc : s.closed = false)
    (hR : s.reader = none) : muxStep s (.readReq ok) = .blocked := by
  unfold muxStep
  rw [hc, if_neg Bool.false_ne_true, hR]

/-- A read whose device call succeeds replies without error and changes
nothing. -/
theorem muxStep_read_true (s : MuxState) (rid : Nat) (w : WrapDev)
    (rest : List WrapDev) (hc : s.closed = false) (hR : s.reader = some rid)
    (hD : s.devs = w :: rest) :
    muxStep s (.readReq true) = .ok s (.ioR rid false) := by
  unfold muxStep
  rw [hc, if_neg Bool.false_ne_true, hR, hD]
  rfl

/-- A read whose device call fails while the device's close channel is
signalled: the error is replaced by nil, the device is removed, and the next
oldest device starts draining. -/
theorem muxStep_read_eof (s : MuxState) (rid : Nat) (w : WrapDev)
    (rest : List WrapDev) (hc : s.closed = false) (hR : s.reader = some rid)
    (hD : s.devs = w :: rest) (hcs : w.closeSig = true) :
    muxStep s (.readReq false) =
      .ok { s with devs := rest, reader := rest.head?.map wrapId } (.ioR rid false) := by
  cases s with
  | mk devs reader writer closed =>
      cases w with
      | mk wdev wsig =>
          dsimp at hc hR hD hcs
          subst hc
          subst hR
          subst hD
          subst hcs
          rfl

/-- A read whose device call fails while the device is still current surfaces
the error to the caller and keeps the device. -/
theorem muxStep_read_err (s : MuxState) (rid : Nat) (w : WrapDev)
    (rest : List WrapDev) (hc : s.closed = false) (hR : s.reader = some rid)
    (hD : s.devs = w :: rest) (hcs : w.closeSig = false) :
    muxStep s (.readReq false) = .ok s (.ioR rid true) := by
  cases s with
  | mk devs reader writer closed =>
      cases w with
      | mk wdev wsig =>
          dsimp at hc hR hD hcs
          subst hc
          subst hR
          subst hD
          subst hcs
          rfl

/-- With no live `runDevice` goroutine, a write request is never serviced. -/
theorem muxStep_write_none (s : MuxState) (ok : Bool) (hc : s.closed = false)
    (hW : s.writer = none) : muxStep s (.writeReq ok) = .blocked := by
  unfold muxStep
  rw [hc, if_neg Bool.false_ne_true, hW]

/-- A write is serviced by the device whose `runDevice` goroutine is live,
passing the device error through. -/
theorem muxStep_write (s : MuxState) (ok : Bool) (wid : Nat)
    (hc : s.closed = false) (hW : s.writer = some wid) :
    muxStep s (.writeReq ok) = .ok s (.ioR wid (!ok)) := by
  unfold muxStep
  rw [hc, if_neg Bool.false_ne_true, hW]

/-- An MTU query with no device replies the default MTU with no error. -/
theorem muxStep_mtu_empty (s : MuxState) (hc : s.closed = false)
    (hL : s.devs.getLast? = none) :
    muxStep s .mtuQ = .ok s (.mtuR defaultMTU false) := by
  unfold muxStep
  rw [hc, if_neg Bool.false_ne_true, hL]

/-- An MTU query with devices replies the newest device's MTU. -/
theorem muxStep_mtu (s : MuxState) (w : WrapDev) (hc : s.closed = false)
    (hL : s.devs.getLast? = some w) :
    muxStep s .mtuQ = .ok s (.mtuR w.dev.mtu false) := by
  unfold muxStep
  rw [hc, if_neg Bool.false_ne_true, hL]

/-- A name query with no device replies the empty name with no error. -/
theorem muxStep_name_empty (s : MuxState) (hc : s.closed = false)
    (hL : s.devs.getLast? = none) :
    muxStep s .nameQ = .ok s (.nameR "" false) := by
  unfold muxStep
  rw [hc, if_neg Bool.false_ne_true, hL]

/-- A name query with devices replies the newest device's name. -/
theorem muxStep_name (s : MuxState) (w : WrapDev) (hc : s.closed = false)
    (hL : s.devs.getLast? = some w) :
    muxStep s .nameQ = .ok s (.nameR w.dev.name false) := by
  unfold muxStep
  rw [hc, if_neg Bool.false_ne_true, hL]

/-- Shutdown with a device whose close channel is already signalled panics
(close of a closed channel). -/
theorem muxStep_shutdown_panic (s : MuxState) (hc : s.closed = false)
    (hA : s.devs.any (fun w => w.closeSig) = true) :
    muxStep s .shutdownReq = .panicked := by
  unfold muxStep
  rw [hc, if_neg Bool.false_ne_true, hA, if_pos rfl]

/-- Shutdown otherwise closes and drains every device, leaving an empty but
running multiplexer. -/
theorem muxStep_shutdown (s : MuxState) (hc : s.closed = false)
    (hA : s.devs.any (fun w => w.closeSig) = false) :
    muxStep s .shutdownReq =
      .ok { s with devs := [], reader := none, writer := none }
        (.shutdownDone (s.devs.map wrapId)) := by
  unfold muxStep
  rw [hc, if_neg Bool.false_ne_true, hA, if_neg Bool.false_ne_true]

/-- Close is serviced while the owner loop runs, terminating it. -/
theorem muxStep_close (s : MuxState) (hc : s.closed = false) :
    muxStep s .closeReq =
      .ok { s with closed := true, reader := none, writer := none } .closedR := by
  unfold muxStep
  rw [hc, if_neg Bool.false_ne_true]

end MuxLemmas

/-- Invariant of the `multiTUN` actor while the owner loop is running: `Read`
requests are serviced by the goroutine of the oldest listed device, `Write`
requests by the goroutine of the newest listed device, and the newest device's
close channel has not been signalled. -/
def MuxInv (s : MuxState) : Prop :=
  s.reader = s.devs.head?.map wrapId ∧
  s.writer = s.devs.getLast?.map wrapId ∧
  ∀ w, s.devs.getLast? = some w → w.closeSig = false

/-- Every reachable, not-yet-closed state of the multiplexer satisfies the
routing invariant. -/
theorem mux_inv : ∀ s : MuxState, Reachable s → s.closed = false → MuxInv s := by
  intro s h
  induction h with
  | init => exact fun _ => ⟨rfl, rfl, fun w hw => by cases hw⟩
  | @step s0 s1 e r hr hstep ih =>
    intro hcl1
    by_cases hc : s0.closed = true
    · exfalso
      by_cases hee : e = .closeReq
      · rw [hee, muxStep_closed_close s0 hc] at hstep
        cases hstep
      · rw [muxStep_closed s0 e hc hee] at hstep
        cases hstep
    · have hc0 : s0.closed = false := by
        cases h0 : s0.closed
        · rfl
        · exact absurd h0 hc
      obtain ⟨ih1, ih2, ih3⟩ := ih hc0
      cases e with
      | addDev d =>
          cases hL : s0.devs.getLast? with
          | none =>
              rw [muxStep_add_empty s0 d hc0 hL] at hstep
              injection hstep with h1 h2
              subst h1
              refine ⟨rfl, rfl, ?_⟩
              intro w hw
              have hw2 : some (⟨d, false⟩ : WrapDev) = some w := hw
              injection hw2 with h3
              subst h3
              rfl
          | some w0 =>
              rw [muxStep_add_more s0 d w0 hc0 hL] at hstep
              injection hstep with h1 h2
              subst h1
              have hne : s0.devs ≠ [] := by
                intro hnil
                rw [hnil] at hL
                cases hL
              have hlast : (setLastClosing s0.devs ++ [(⟨d, false⟩ : WrapDev)]).getLast? =
                  some ⟨d, false⟩ := List.getLast?_concat _
              refine ⟨?_, ?_, ?_⟩
              · show s0.reader =
                  ((setLastClosing s0.devs ++ [(⟨d, false⟩ : WrapDev)]).head?).map wrapId
                rw [head?_append_ne_nil _ _ (setLastClosing_ne_nil _ hne), setLastClosing_head_id]
                exact ih1
              · show some d.id =
                  ((setLastClosing s0.devs ++ [(⟨d, false⟩ : WrapDev)]).getLast?).map wrapId
                rw [hlast]
                rfl
              · intro w hw
                have hw2 : (setLastClosing s0.devs ++ [(⟨d, false⟩ : WrapDev)]).getLast? =
                    some w := hw
                rw [hlast] at hw2
                injection hw2 with h3
                subst h3
                rfl
      | readReq ok =>
          cases hR : s0.reader with
          | none =>
              rw [muxStep_read_none s0 ok hc0 hR] at hstep
              cases hstep
          | some rid =>
              cases hD : s0.devs with
              | nil =>
                  rw [ih1, hD] at hR
                  cases hR
              | cons w rest =>
                  cases ok with
                  | true =>
                      rw [muxStep_read_true s0 rid w rest hc0 hR hD] at hstep
                      injection hstep with h1 h2
                      subst h1
                      exact ⟨ih1, ih2, ih3⟩
                  | false =>
                      cases hcs : w.closeSig with
                      | false =>
                          rw [muxStep_read_err s0 rid w rest hc0 hR hD hcs] at hstep
                          injection hstep with h1 h2
                          subst h1
                          exact ⟨ih1, ih2, ih3⟩
                      | true =>
                          rw [muxStep_read_eof s0 rid w rest hc0 hR hD hcs] at hstep
                          injection hstep with h1 h2
                          subst h1
                          have hrne : rest ≠ [] := by
                            intro hnil
                            subst hnil
                            have hx := ih3 w (by rw [hD]; rfl)
                            rw [hcs] at hx
                            cases hx
                          refine ⟨rfl, ?_, ?_⟩
                          · show s0.writer = (rest.getLast?).map wrapId
                            rw [ih2, hD, getLast?_cons_ne_nil _ _ hrne]
                          · intro w1 hw1
                            apply ih3
                            rw [hD, getLast?_cons_ne_nil _ _ hrne]
                            exact hw1
      | writeReq ok =>
          cases hW : s0.writer with
          | none =>
              rw [muxStep_write_none s0 ok hc0 hW] at hstep
              cases hstep
          | some wid =>
              rw [muxStep_write s0 ok wid hc0 hW] at hstep
              injection hstep with h1 h2
              subst h1
              exact ⟨ih1, ih2, ih3⟩
      | mtuQ =>
          cases hL : s0.devs.getLast? with
          | none =>
              rw [muxStep_mtu_empty s0 hc0 hL] at hstep
              injection hstep with h1 h2
              subst h1
              exact ⟨ih1, ih2, ih3⟩
          | some w0 =>
              rw [muxStep_mtu s0 w0 hc0 hL] at hstep
              injection hstep with h1 h2
              subst h1
              exact ⟨ih1, ih2, ih3⟩
      | nameQ =>
          cases hL : s0.devs.getLast? with
          | none =>
              rw [muxStep_name_empty s0 hc0 hL] at hstep
              injection hstep with h1 h2
              subst h1
              exact ⟨ih1, ih2, ih3⟩
          | some w0 =>
              rw [muxStep_name s0 w0 hc0 hL] at hstep
              injection hstep with h1 h2
              subst h1
              exact ⟨ih1, ih2, ih3⟩
      | shutdownReq =>
          cases hA : s0.devs.any (fun w => w.closeSig) with
          | true =>
              rw [muxStep_shutdown_panic s0 hc0 hA] at hstep
              cases hstep
          | false =>
              rw [muxStep_shutdown s0 hc0 hA] at hstep
              injection hstep with h1 h2
              subst h1
              exact ⟨rfl, rfl, fun w hw => by cases hw⟩
      | closeReq =>
          rw [muxStep_close s0 hc0] at hstep
          injection hstep with h1 h2
          subst h1
          exact Bool.noConfusion hcl1

/-- State after `add(d1)` on a fresh multiplexer. -/
def addedOne (d : TunDev) : MuxState :=
  { devs := [⟨d, false⟩], reader := some d.id, writer := some d.id, closed := false }

/-- State after `add(d1)` then `add(d2)`: d1's close channel is signalled, d1
still drains reads, d2 owns writes. -/
def addedTwo (d1 d2 : TunDev) : MuxState :=
  { devs := [⟨d1, true⟩, ⟨d2, false⟩], reader := some d1.id, writer := some d2.id,
    closed := false }

/-- State after d1's read path signalled end-of-data: d1 removed, d2 serves
both directions. -/
def afterEOF (d2 : TunDev) : MuxState :=
  { devs := [⟨d2, false⟩], reader := some d2.id, writer := some d2.id, closed := false }

/-- C3: in every reachable state of the running multiplexer, read requests are
serviced by the oldest listed device and write requests by the newest; and in
the add(d1); add(d2) scenario, writes go exclusively to d2 while reads keep
draining d1; d1's end-of-data is surfaced to the caller without error, after
which reads switch to d2. -/
theorem claimC3 :
    (∀ s : MuxState, Reachable s → s.closed = false →
      s.reader = s.devs.head?.map wrapId ∧ s.writer = s.devs.getLast?.map wrapId) ∧
    (∀ d1 d2 : TunDev,
      muxStep initState (.addDev d1) = .ok (addedOne d1) .accepted ∧
      muxStep (addedOne d1) (.addDev d2) = .ok (addedTwo d1 d2) .accepted ∧
      (∀ ok, muxStep (addedTwo d1 d2) (.writeReq ok) =
        .ok (addedTwo d1 d2) (.ioR d2.id (!ok))) ∧
      muxStep (addedTwo d1 d2) (.readReq true) = .ok (addedTwo d1 d2) (.ioR d1.id false) ∧
      muxStep (addedTwo d1 d2) (.readReq false) = .ok (afterEOF d2) (.ioR d1.id false) ∧
      muxStep (afterEOF d2) (.readReq true) = .ok (afterEOF d2) (.ioR d2.id false) ∧
      (∀ ok, muxStep (afterEOF d2) (.writeReq ok) =
        .ok (afterEOF d2) (.ioR d2.id (!ok)))) := by
  constructor
  · intro s h hcl
    obtain ⟨h1, h2, _⟩ := mux_inv s h hcl
    exact ⟨h1, h2⟩
  · intro d1 d2
    exact ⟨rfl, rfl, fun ok => rfl, rfl, rfl, rfl, fun ok => rfl⟩

/-- C3 witness: the invariant instantiated at the initial state, and the
end-of-data handover at concrete devices 1 and 2. -/
theorem claimC3_witness :
    (initState.reader = initState.devs.head?.map wrapId ∧
     initState.writer = initState.devs.getLast?.map wrapId) ∧
    muxStep (addedTwo ⟨1, 1500, "tun1"⟩ ⟨2, 1400, "tun2"⟩) (.readReq false) =
      .ok (afterEOF ⟨2, 1400, "tun2"⟩) (.ioR 1 false) :=
  ⟨claimC3.1 initState Reachable.init rfl,
   (claimC3.2 ⟨1, 1500, "tun1"⟩ ⟨2, 1400, "tun2"⟩).2.2.2.2.1⟩

/-- Claim C4 as stated: every operation issued after close is serviced and
returns a result (a defined error) to its caller. -/
def claimC4Prop : Prop :=
  ∀ (s : MuxState) (e : MuxEvent), s.closed = true →
    ∃ (s' : MuxState) (r : MuxReply), muxStep s e = .ok s' r

/-- C4 counterexample: after close, an MTU query is never serviced (its
channel send has no receiver, so the caller blocks forever rather than
receiving an error), and a second close panics; so the claim as stated is
false. -/
theorem claimC4_cex :
    muxStep ⟨[], none, none, true⟩ .mtuQ = .blocked ∧
    muxStep ⟨[], none, none, true⟩ .closeReq = .panicked ∧
    ¬ claimC4Prop := by
  refine ⟨rfl, rfl, fun h => ?_⟩
  obtain ⟨s', r, hsr⟩ := h ⟨[], none, none, true⟩ .mtuQ rfl
  rw [show muxStep ⟨[], none, none, true⟩ .mtuQ = .blocked from rfl] at hsr
  cases hsr

/-- C4 (amended): after close, no operation is ever serviced — there is no
MultiplexerClosedError in the code; every request other than a second close
blocks its caller forever, and a second close panics on the already-closed
channel. -/
theorem claimC4_amended :
    ∀ (s : MuxState) (e : MuxEvent), s.closed = true →
      (e ≠ .closeReq → muxStep s e = .blocked) ∧
      (e = .closeReq → muxStep s e = .panicked) := by
  intro s e hc
  refine ⟨fun hne => muxStep_closed s e hc hne, fun he => ?_⟩
  rw [he]
  exact muxStep_closed_close s hc

/-- C4 witness: the amended behavior at a concrete closed state. -/
theorem claimC4_witness :
    muxStep ⟨[], none, none, true⟩ .mtuQ = .blocked ∧
    muxStep ⟨[], none, none, true⟩ .closeReq = .panicked :=
  ⟨(claimC4_amended ⟨[], none, none, true⟩ .mtuQ rfl).1 (by decide),
   (claimC4_amended ⟨[], none, none, true⟩ .closeReq rfl).2 rfl⟩

/-- C7: when shutdown is serviced without panicking (no listed device's close
channel was already signalled), it closes and drains every listed device,
leaves the device list empty, and the multiplexer stays usable: a subsequent
add(d3) succeeds and subsequent reads and writes are serviced by d3. -/
theorem claimC7 :
    ∀ s : MuxState, s.closed = false →
      s.devs.any (fun w => w.closeSig) = false →
      muxStep s .shutdownReq =
        .ok { s with devs := [], reader := none, writer := none }
          (.shutdownDone (s.devs.map wrapId)) ∧
      (∀ d3 : TunDev,
        muxStep { s with devs := [], reader := none, writer := none } (.addDev d3) =
          .ok { s with devs := [⟨d3, false⟩], reader := some d3.id, writer := some d3.id }
            .accepted ∧
        muxStep { s with devs := [⟨d3, false⟩], reader := some d3.id, writer := some d3.id }
            (.readReq true) =
          .ok { s with devs := [⟨d3, false⟩], reader := some d3.id, writer := some d3.id }
            (.ioR d3.id false) ∧
        muxStep { s with devs := [⟨d3, false⟩], reader := some d3.id, writer := some d3.id }
            (.writeReq true) =
          .ok { s with devs := [⟨d3, false⟩], reader := some d3.id, writer := some d3.id }
            (.ioR d3.id false)) := by
  intro s hc hA
  constructor
  · exact muxStep_shutdown s hc hA
  · intro d3
    refine ⟨muxStep_add_empty _ d3 hc rfl, ?_, ?_⟩
    · exact muxStep_read_true _ d3.id ⟨d3, false⟩ [] hc rfl rfl
    · exact muxStep_write _ true d3.id hc rfl

/-- C7 witness: shutdown of a single-device multiplexer followed by adding a
fresh device, at concrete devices. -/
theorem claimC7_witness :
    muxStep ⟨[⟨⟨7, 1500, "tun0"⟩, false⟩], some 7, some 7, false⟩ .shutdownReq =
      .ok ⟨[], none, none, false⟩ (.shutdownDone [7]) ∧
    muxStep ⟨[], none, none, false⟩ (.addDev ⟨3, 1400, "tun3"⟩) =
      .ok ⟨[⟨⟨3, 1400, "tun3"⟩, false⟩], some 3, some 3, false⟩ .accepted := by
  have h := claimC7 ⟨[⟨⟨7, 1500, "tun0"⟩, false⟩], some 7, some 7, false⟩ rfl rfl
  exact ⟨h.1, (h.2 ⟨3, 1400, "tun3"⟩).1⟩

/-- C8: while the multiplexer runs, MTU and Name queries report the newest
device's MTU and name when at least one device is listed, and the default MTU
1280 with an empty name and no error when the list is empty. -/
theorem claimC8 :
    ∀ s : MuxState, s.closed = false →
      (s.devs = [] →
        muxStep s .mtuQ = .ok s (.mtuR 1280 false) ∧
        muxStep s .nameQ = .ok s (.nameR "" false)) ∧
      (∀ w : WrapDev, s.devs.getLast? = some w →
        muxStep s .mtuQ = .ok s (.mtuR w.dev.mtu false) ∧
        muxStep s .nameQ = .ok s (.nameR w.dev.name false)) := by
  intro s hc
  constructor
  · intro hd
    have hL : s.devs.getLast? = none := by rw [hd]; rfl
    exact ⟨muxStep_mtu_empty s hc hL, muxStep_name_empty s hc hL⟩
  · intro w hw
    exact ⟨muxStep_mtu s w hc hw, muxStep_name s w hc hw⟩

/-- C8 witness: the default at the empty initial state and the passthrough at
a concrete one-device state. -/
theorem claimC8_witness :
    muxStep initState .mtuQ = .ok initState (.mtuR 1280 false) ∧
    muxStep ⟨[⟨⟨4, 1500, "ts0"⟩, false⟩], some 4, some 4, false⟩ .nameQ =
      .ok ⟨[⟨⟨4, 1500, "ts0"⟩, false⟩], some 4, some 4, false⟩ (.nameR "ts0" false) :=
  ⟨((claimC8 initState rfl).1 rfl).1,
   ((claimC8 ⟨[⟨⟨4, 1500, "ts0"⟩, false⟩], some 4, some 4, false⟩ rfl).2
     ⟨⟨4, 1500, "ts0"⟩, false⟩ rfl).2⟩

/-- C10: a write issued while no device is installed is never serviced — the
caller blocks with no value and no error until a device is added — whereas
MTU and Name queries are still serviced with their no-device defaults; once a
device d is added, writes are serviced by d. -/
theorem claimC10 :
    ∀ s : MuxState, Reachable s → s.closed = false → s.devs = [] →
      (∀ ok, muxStep s (.writeReq ok) = .blocked) ∧
      muxStep s .mtuQ = .ok s (.mtuR defaultMTU false) ∧
      muxStep s .nameQ = .ok s (.nameR "" false) ∧
      (∀ (d : TunDev) (ok : Bool),
        muxStep s (.addDev d) =
          .ok { s with devs := [⟨d, false⟩], reader := some d.id, writer := some d.id }
            .accepted ∧
        muxStep { s with devs := [⟨d, false⟩], reader := some d.id, writer := some d.id }
            (.writeReq ok) =
          .ok { s with devs := [⟨d, false⟩], reader := some d.id, writer := some d.id }
            (.ioR d.id (!ok))) := by
  intro s hr hc hd
  obtain ⟨_, ih2, _⟩ := mux_inv s hr hc
  have hW : s.writer = none := by rw [ih2, hd]; rfl
  have hL : s.devs.getLast? = none := by rw [hd]; rfl
  refine ⟨fun ok => muxStep_write_none s ok hc hW, muxStep_mtu_empty s hc hL,
    muxStep_name_empty s hc hL, ?_⟩
  intro d ok
  exact ⟨muxStep_add_empty s d hc hL, muxStep_write _ ok d.id hc rfl⟩

/-- C10 witness: on the fresh multiplexer a write blocks, and after adding a
concrete device the write is serviced by it. -/
theorem claimC10_witness :
    muxStep initState (.writeReq true) = .blocked ∧
    muxStep initState (.addDev ⟨9, 1500, "w0"⟩) =
      .ok ⟨[⟨⟨9, 1500, "w0"⟩, false⟩], some 9, some 9, false⟩ .accepted ∧
    muxStep ⟨[⟨⟨9, 1500, "w0"⟩, false⟩], some 9, some 9, false⟩ (.writeReq true) =
      .ok ⟨[⟨⟨9, 1500, "w0"⟩, false⟩], some 9, some 9, false⟩ (.ioR 9 false) := by
  have h := claimC10 initState Reachable.init rfl rfl
  exact ⟨h.1 true, (h.2.2.2 ⟨9, 1500, "w0"⟩ true).1, (h.2.2.2 ⟨9, 1500, "w0"⟩ true).2⟩
